import Mathlib

/-!
A verification development for the TOS MCP server's object-retrieval
operations (`mcp_server_tos/resources/object.py`).

The Python source is shallowly embedded: bytes are `Nat` values below 256,
an HTTP response is a record of status code, optional `content-length`
header value and body bytes, and each of the three operations
(`get_object`, `video_info`, `video_snapshot`) is a pure function from its
arguments and the received response to a `CallOutcome` holding the query
parameters sent, the returned value or raised error, and the list of
observable events (body stream consumed, response closed).
-/

/-! ## String helpers

`String` append in Lean concatenates the underlying character lists; the
following lemmas let proofs reassociate and drop empty pieces.
-/

theorem strData_append (a b : String) : (a ++ b).data = a.data ++ b.data := by
  cases a
  cases b
  rfl

theorem strAppend_assoc (a b c : String) : a ++ b ++ c = a ++ (b ++ c) := by
  cases a
  cases b
  cases c
  exact congrArg String.mk (List.append_assoc _ _ _)

theorem strAppend_empty (a : String) : a ++ "" = a := by
  cases a
  exact congrArg String.mk (List.append_nil _)

theorem strEmpty_append (a : String) : "" ++ a = a := by
  cases a
  rfl

/-- Boolean test that the character list `n` occurs at the start of `h`. -/
def startScan : List Char → List Char → Bool
  | [], _ => true
  | _ :: _, [] => false
  | a :: as, b :: bs => a == b && startScan as bs

/-- Boolean test that the character list `n` occurs somewhere inside `h`. -/
def subScan (n : List Char) : List Char → Bool
  | [] => startScan n []
  | c :: t => startScan n (c :: t) || subScan n t

/-- The string `needle` occurs as a contiguous substring of `hay`. -/
def containsStr (hay needle : String) : Bool :=
  subScan needle.data hay.data

theorem startScan_self_append (n t : List Char) : startScan n (n ++ t) = true := by
  induction n with
  | nil => rfl
  | cons a as ih => simp [startScan, ih]

theorem subScan_here (n h : List Char) (hs : startScan n h = true) : subScan n h = true := by
  cases h with
  | nil => simpa [subScan] using hs
  | cons c t => simp [subScan, hs]

theorem subScan_append (p n t : List Char) : subScan n (p ++ (n ++ t)) = true := by
  induction p with
  | nil =>
    rw [List.nil_append]
    exact subScan_here n (n ++ t) (startScan_self_append n t)
  | cons c p ih =>
    rw [List.cons_append, subScan]
    simp [ih]

/-! ## Python `str.lower` / `str.endswith` and the text-extension test -/

/-- ASCII lowering of one character, as `str.lower` acts on the characters
appearing in the fixed extension list (the full Unicode lowering of other
characters is irrelevant to the suffix test and is not modelled). -/
def pyLowerChar (c : Char) : Char :=
  if 65 ≤ c.toNat ∧ c.toNat ≤ 90 then Char.ofNat (c.toNat + 32) else c

def pyLower (s : String) : String :=
  String.mk (s.data.map pyLowerChar)

def strEndsWith (s suffixStr : String) : Bool :=
  List.isSuffixOf suffixStr.data s.data

/-- The fixed set of text extensions from `is_text_file`. -/
def text_extensions : List String :=
  [".txt", ".log", ".json", ".xml", ".yml", ".yaml", ".md",
   ".csv", ".ini", ".conf", ".py", ".js", ".html", ".css",
   ".sh", ".bash", ".cfg", ".properties"]

/-- Model of `is_text_file`: the lowercased key ends with one of the fixed
text extensions. -/
def is_text_file (key : String) : Bool :=
  text_extensions.any (fun ext => strEndsWith (pyLower key) ext)

/-! ## Base64 (standard alphabet, as `base64.b64encode`) -/

def b64Table : List Char :=
  "ABCDEFGHIJKLMNOPQRSTUVWXYZabcdefghijklmnopqrstuvwxyz0123456789+/".data

def sextetChar (n : Nat) : Char :=
  b64Table.getD n (Char.ofNat 65)

def sextetValAux (c : Char) : List Char → Nat → Option Nat
  | [], _ => Option.none
  | d :: ds, i => if c == d then Option.some i else sextetValAux c ds (i + 1)

def sextetVal (c : Char) : Option Nat :=
  sextetValAux c b64Table 0

/-- Standard base64 encoding of a byte list (bytes are naturals below 256). -/
def b64EncodeBytes : List Nat → List Char
  | [] => []
  | [a] => [sextetChar (a / 4), sextetChar (a % 4 * 16), '=', '=']
  | [a, b] => [sextetChar (a / 4), sextetChar (a % 4 * 16 + b / 16), sextetChar (b % 16 * 4), '=']
  | a :: b :: c :: rest =>
    sextetChar (a / 4) :: sextetChar (a % 4 * 16 + b / 16) ::
      sextetChar (b % 16 * 4 + c / 64) :: sextetChar (c % 64) :: b64EncodeBytes rest

/-- Standard base64 decoding, the inverse used to state the round-trip
property; spare padding bits are ignored as `base64.b64decode` does. -/
def b64DecodeChars : List Char → Option (List Nat)
  | [] => Option.some []
  | w :: x :: y :: z :: rest =>
    match sextetVal w, sextetVal x with
    | Option.some v1, Option.some v2 =>
      if y = '=' then
        if z = '=' ∧ rest = [] then Option.some [v1 * 4 + v2 / 16] else Option.none
      else
        match sextetVal y with
        | Option.some v3 =>
          if z = '=' then
            if rest = [] then Option.some [v1 * 4 + v2 / 16, v2 % 16 * 16 + v3 / 4]
            else Option.none
          else
            match sextetVal z, b64DecodeChars rest with
            | Option.some v4, Option.some bs =>
              Option.some ((v1 * 4 + v2 / 16) :: (v2 % 16 * 16 + v3 / 4) :: (v3 % 4 * 64 + v4) :: bs)
            | _, _ => Option.none
        | Option.none => Option.none
    | _, _ => Option.none
  | _ => Option.none

/-- Result of `base64.b64encode(bytes).decode()`. -/
def b64EncodeToStr (l : List Nat) : String :=
  String.mk (b64EncodeBytes l)

def b64DecodeStr (s : String) : Option (List Nat) :=
  b64DecodeChars s.data

theorem sextetVal_sextetChar : ∀ n : Nat, n < 64 → sextetVal (sextetChar n) = Option.some n := by
  decide

theorem sextetChar_ne_pad : ∀ n : Nat, n < 64 → ¬ sextetChar n = '=' := by
  decide

theorem b64_roundtrip (l : List Nat) (hb : ∀ b ∈ l, b < 256) :
    b64DecodeChars (b64EncodeBytes l) = Option.some l := by
  induction l using b64EncodeBytes.induct with
  | case1 => rfl
  | case2 a =>
    have ha : a < 256 := hb a (by simp)
    rw [b64EncodeBytes, b64DecodeChars,
      sextetVal_sextetChar (a / 4) (by omega),
      sextetVal_sextetChar (a % 4 * 16) (by omega)]
    dsimp only
    simp
    omega
  | case3 a b =>
    have ha : a < 256 := hb a (by simp)
    have hbb : b < 256 := hb b (by simp)
    rw [b64EncodeBytes, b64DecodeChars,
      sextetVal_sextetChar (a / 4) (by omega),
      sextetVal_sextetChar (a % 4 * 16 + b / 16) (by omega)]
    dsimp only
    rw [if_neg (sextetChar_ne_pad (b % 16 * 4) (by omega)),
      sextetVal_sextetChar (b % 16 * 4) (by omega)]
    dsimp only
    simp
    omega
  | case4 a b c rest ih =>
    have ha : a < 256 := hb a (by simp)
    have hbb : b < 256 := hb b (by simp)
    have hc : c < 256 := hb c (by simp)
    have hrest : ∀ x ∈ rest, x < 256 := by
      intro x hx
      exact hb x (by simp [hx])
    rw [b64EncodeBytes, b64DecodeChars,
      sextetVal_sextetChar (a / 4) (by omega),
      sextetVal_sextetChar (a % 4 * 16 + b / 16) (by omega)]
    dsimp only
    rw [if_neg (sextetChar_ne_pad (b % 16 * 4 + c / 64) (by omega)),
      sextetVal_sextetChar (b % 16 * 4 + c / 64) (by omega)]
    dsimp only
    rw [if_neg (sextetChar_ne_pad (c % 64) (by omega)),
      sextetVal_sextetChar (c % 64) (by omega), ih hrest]
    dsimp only
    simp only [Option.some.injEq, List.cons.injEq, and_true]
    refine ⟨by omega, by omega, by omega⟩

/-! ## UTF-8 (as `bytes.decode("utf-8")` / `str.encode("utf-8")`)

The decoder follows the strict UTF-8 rules Python enforces: continuation
bytes must lie in `0x80..0xBF`, overlong encodings (`0xC0`/`0xC1`, short
`0xE0`/`0xF0` sequences), surrogates (via `0xED`) and code points above
`U+10FFFF` (via `0xF4`) are rejected.
-/

def utf8DecodeGo : Nat → List Nat → Option (List Char)
  | _, [] => Option.some []
  | 0, _ :: _ => Option.none
  | fuel + 1, b :: rest =>
    if b < 128 then
      (utf8DecodeGo fuel rest).map (fun cs => Char.ofNat b :: cs)
    else if b < 194 then Option.none
    else if b < 224 then
      match rest with
      | c1 :: rest2 =>
        if 128 ≤ c1 ∧ c1 < 192 then
          (utf8DecodeGo fuel rest2).map (fun cs => Char.ofNat ((b - 192) * 64 + (c1 - 128)) :: cs)
        else Option.none
      | [] => Option.none
    else if b < 240 then
      match rest with
      | c1 :: c2 :: rest3 =>
        if (if b = 224 then 160 ≤ c1 ∧ c1 < 192
            else if b = 237 then 128 ≤ c1 ∧ c1 < 160
            else 128 ≤ c1 ∧ c1 < 192) ∧ 128 ≤ c2 ∧ c2 < 192 then
          (utf8DecodeGo fuel rest3).map
            (fun cs => Char.ofNat ((b - 224) * 4096 + (c1 - 128) * 64 + (c2 - 128)) :: cs)
        else Option.none
      | _ => Option.none
    else if b < 245 then
      match rest with
      | c1 :: c2 :: c3 :: rest4 =>
        if (if b = 240 then 144 ≤ c1 ∧ c1 < 192
            else if b = 244 then 128 ≤ c1 ∧ c1 < 144
            else 128 ≤ c1 ∧ c1 < 192) ∧ 128 ≤ c2 ∧ c2 < 192 ∧ 128 ≤ c3 ∧ c3 < 192 then
          (utf8DecodeGo fuel rest4).map
            (fun cs => Char.ofNat ((b - 240) * 262144 + (c1 - 128) * 4096 +
              (c2 - 128) * 64 + (c3 - 128)) :: cs)
        else Option.none
      | _ => Option.none
    else Option.none

/-- Result of `content.decode("utf-8")`, when it succeeds. Each decoding
step consumes at least one byte, so `l.length` units of fuel always
suffice. -/
def utf8Decode (l : List Nat) : Option String :=
  (utf8DecodeGo l.length l).map (fun cs => String.mk cs)

/-- UTF-8 bytes of one character. -/
def utf8EncodeChar (c : Char) : List Nat :=
  let n := c.toNat
  if n < 128 then [n]
  else if n < 2048 then [192 + n / 64, 128 + n % 64]
  else if n < 65536 then [224 + n / 4096, 128 + n / 64 % 64, 128 + n % 64]
  else [240 + n / 262144, 128 + n / 4096 % 64, 128 + n / 64 % 64, 128 + n % 64]

/-- Result of `s.encode("utf-8")` as a byte list. -/
def utf8EncodeStr (s : String) : List Nat :=
  s.data.foldr (fun c acc => utf8EncodeChar c ++ acc) []

/-- Byte list of an ASCII string, convenient for concrete test bodies. -/
def asciiBytes (s : String) : List Nat :=
  s.data.map Char.toNat

/-! ## Python `int(...)` on header strings

Model of `int(response.headers.get("content-length", "0"))`: an optional
sign followed by at least one decimal digit parses to an integer, anything
else raises `ValueError` (Python additionally strips whitespace and allows
inner underscores, which no claim exercises).
-/

def isDigitChar (c : Char) : Bool :=
  if 48 ≤ c.toNat ∧ c.toNat ≤ 57 then true else false

def digitsToNatAux (acc : Nat) : List Char → Option Nat
  | [] => Option.some acc
  | c :: rest =>
    if isDigitChar c then digitsToNatAux (acc * 10 + (c.toNat - 48)) rest else Option.none

def pythonInt (s : String) : Option Int :=
  match s.data with
  | [] => Option.none
  | '-' :: rest =>
    match rest with
    | [] => Option.none
    | _ :: _ => (digitsToNatAux 0 rest).map (fun n => -(n : Int))
  | '+' :: rest =>
    match rest with
    | [] => Option.none
    | _ :: _ => (digitsToNatAux 0 rest).map (fun n => (n : Int))
  | l => (digitsToNatAux 0 l).map (fun n => (n : Int))

/-! ## Chunked body read

`response.aiter_bytes(chunk_size)` yields the body in fixed-size chunks
which the loop concatenates in arrival order; `readChunks` models the
chunking and `readChunks_id` shows the concatenation restores the body.
-/

def chunksGo (m : Nat) : Nat → List Nat → List (List Nat)
  | _, [] => []
  | 0, _ :: _ => []
  | fuel + 1, a :: rest => ((a :: rest).take (m + 1)) :: chunksGo m fuel ((a :: rest).drop (m + 1))

/-- The body as the loop sees it: split into chunks of `chunk_size` bytes
and concatenated back in arrival order. Each chunk is non-empty, so
`body.length` units of fuel always suffice. -/
def readChunks (chunk_size : Nat) (body : List Nat) : List Nat :=
  (chunksGo (chunk_size - 1) body.length body).flatten

theorem chunksGo_flatten (m : Nat) :
    ∀ (fuel : Nat) (l : List Nat), l.length ≤ fuel → (chunksGo m fuel l).flatten = l := by
  intro fuel
  induction fuel with
  | zero =>
    intro l hl
    cases l with
    | nil => rfl
    | cons a rest => simp at hl
  | succ k ih =>
    intro l hl
    cases l with
    | nil => rfl
    | cons a rest =>
      rw [chunksGo, List.flatten_cons, ih]
      · exact List.take_append_drop _ _
      · simp only [List.length_drop, List.length_cons] at *
        omega

theorem readChunks_id (c : Nat) (body : List Nat) : readChunks c body = body :=
  chunksGo_flatten (c - 1) body.length body le_rfl

/-! ## Python values, `json.loads` and `repr`

A non-success response interpolates `response.json()` into the error
message: the body bytes are decoded as UTF-8, parsed as JSON into a Python
value, and that value is rendered by Python string formatting (which for a
dict or list uses `repr`, printing strings with single quotes). The model
covers the JSON subset the service emits: objects, arrays, strings with
simple escapes, integers, booleans and null (floats and `\u` escapes are
rejected, which no claim exercises).
-/

mutual

inductive PyVal where
  | str (s : String)
  | int (n : Int)
  | bool (b : Bool)
  | none
  | list (xs : PyItems)
  | dict (kvs : PyMembers)

inductive PyItems where
  | nil
  | cons (v : PyVal) (rest : PyItems)

inductive PyMembers where
  | nil
  | cons (k : String) (v : PyVal) (rest : PyMembers)

end

def jIsWs (c : Char) : Bool :=
  c == ' ' || c == Char.ofNat 10 || c == Char.ofNat 13 || c == Char.ofNat 9

def jSkipWs : List Char → List Char
  | [] => []
  | c :: rest => if jIsWs c then jSkipWs rest else c :: rest

def jStrGo : Nat → List Char → Option (List Char × List Char)
  | _, [] => Option.none
  | 0, _ :: _ => Option.none
  | fuel + 1, c :: rest =>
    if c = Char.ofNat 34 then Option.some ([], rest)
    else if c = '\\' then
      match rest with
      | e :: rest2 =>
        match
          (if e = Char.ofNat 34 then Option.some (Char.ofNat 34)
           else if e = '\\' then Option.some '\\'
           else if e = '/' then Option.some '/'
           else if e = 'n' then Option.some (Char.ofNat 10)
           else if e = 't' then Option.some (Char.ofNat 9)
           else if e = 'r' then Option.some (Char.ofNat 13)
           else if e = 'b' then Option.some (Char.ofNat 8)
           else if e = 'f' then Option.some (Char.ofNat 12)
           else Option.none) with
        | Option.some d => (jStrGo fuel rest2).map (fun p => (d :: p.1, p.2))
        | Option.none => Option.none
      | [] => Option.none
    else if c.toNat < 32 then Option.none
    else (jStrGo fuel rest).map (fun p => (c :: p.1, p.2))

/-- Parse the characters of a JSON string after the opening quote, returning
the content and the remainder after the closing quote. Each step consumes at
least one character, so `l.length` units of fuel always suffice. -/
def jStrChars (l : List Char) : Option (List Char × List Char) :=
  jStrGo l.length l

def jDigitsAux (acc : Nat) : List Char → Nat × List Char
  | [] => (acc, [])
  | c :: rest =>
    if isDigitChar c then jDigitsAux (acc * 10 + (c.toNat - 48)) rest else (acc, c :: rest)

/-- Parse a JSON non-negative integer. A leading zero followed by another
digit is invalid JSON and is rejected, as `json.loads` rejects it; a
following `.`, `e` or `E` would make it a float, which the model rejects. -/
def jNat : List Char → Option (Nat × List Char)
  | [] => Option.none
  | c :: rest =>
    if isDigitChar c then
      if c == '0' && (match rest with | d :: _ => isDigitChar d | [] => false) then Option.none
      else
      match jDigitsAux 0 (c :: rest) with
      | (n, d :: r2) =>
        if d = '.' ∨ d = 'e' ∨ d = 'E' then Option.none else Option.some (n, d :: r2)
      | (n, []) => Option.some (n, [])
    else Option.none

/-- Python dict insertion `d[k] = v`: a duplicate key keeps its original
position and takes the new value, a new key is appended. -/
def pyDictInsert (k : String) (v : PyVal) : PyMembers → PyMembers
  | PyMembers.nil => PyMembers.cons k v PyMembers.nil
  | PyMembers.cons k2 v2 rest =>
    if k = k2 then PyMembers.cons k2 v rest
    else PyMembers.cons k2 v2 (pyDictInsert k v rest)

/-- Build a Python dict by inserting the parsed key/value pairs in source
order, so a duplicate key ends up once, at its first position, with its last
value — as `json.loads` produces. -/
def pyDictFold (acc : PyMembers) : PyMembers → PyMembers
  | PyMembers.nil => acc
  | PyMembers.cons k v rest => pyDictFold (pyDictInsert k v acc) rest

/-- Parsing mode: a single value, the members of an object after the opening
brace, or the items of an array after the opening bracket. -/
inductive JMode where
  | value
  | members
  | items

def jParse : Nat → JMode → List Char → Option (PyVal × List Char)
  | 0, _, _ => Option.none
  | fuel + 1, JMode.value, cs =>
    (match jSkipWs cs with
    | [] => Option.none
    | c :: rest =>
      if c = Char.ofNat 123 then
        match jSkipWs rest with
        | d :: rest2 =>
          if d = Char.ofNat 125 then Option.some (PyVal.dict PyMembers.nil, rest2)
          else
            match jParse fuel JMode.members (d :: rest2) with
            | Option.some (PyVal.dict ms, r) =>
              Option.some (PyVal.dict (pyDictFold PyMembers.nil ms), r)
            | _ => Option.none
        | [] => Option.none
      else if c = '[' then
        match jSkipWs rest with
        | d :: rest2 =>
          if d = ']' then Option.some (PyVal.list PyItems.nil, rest2)
          else jParse fuel JMode.items (d :: rest2)
        | [] => Option.none
      else if c = Char.ofNat 34 then
        (jStrChars rest).map (fun p => (PyVal.str (String.mk p.1), p.2))
      else if c = 't' then
        match rest with
        | 'r' :: 'u' :: 'e' :: r => Option.some (PyVal.bool true, r)
        | _ => Option.none
      else if c = 'f' then
        match rest with
        | 'a' :: 'l' :: 's' :: 'e' :: r => Option.some (PyVal.bool false, r)
        | _ => Option.none
      else if c = 'n' then
        match rest with
        | 'u' :: 'l' :: 'l' :: r => Option.some (PyVal.none, r)
        | _ => Option.none
      else if c = '-' then
        (jNat rest).map (fun p => (PyVal.int (-(p.1 : Int)), p.2))
      else
        (jNat (c :: rest)).map (fun p => (PyVal.int (p.1 : Int), p.2)))
  | fuel + 1, JMode.members, cs =>
    (match jSkipWs cs with
    | c :: rest =>
      if c = Char.ofNat 34 then
        match jStrChars rest with
        | Option.some (kcs, rest2) =>
          match jSkipWs rest2 with
          | ':' :: rest3 =>
            match jParse fuel JMode.value rest3 with
            | Option.some (v, rest4) =>
              match jSkipWs rest4 with
              | ',' :: rest5 =>
                match jParse fuel JMode.members rest5 with
                | Option.some (PyVal.dict ms, rest6) =>
                  Option.some (PyVal.dict (PyMembers.cons (String.mk kcs) v ms), rest6)
                | _ => Option.none
              | d :: rest5 =>
                if d = Char.ofNat 125 then
                  Option.some (PyVal.dict (PyMembers.cons (String.mk kcs) v PyMembers.nil), rest5)
                else Option.none
              | [] => Option.none
            | Option.none => Option.none
          | _ => Option.none
        | Option.none => Option.none
      else Option.none
    | [] => Option.none)
  | fuel + 1, JMode.items, cs =>
    (match jParse fuel JMode.value cs with
    | Option.some (v, rest) =>
      match jSkipWs rest with
      | ',' :: rest2 =>
        match jParse fuel JMode.items rest2 with
        | Option.some (PyVal.list vs, rest3) => Option.some (PyVal.list (PyItems.cons v vs), rest3)
        | _ => Option.none
      | d :: rest2 =>
        if d = ']' then Option.some (PyVal.list (PyItems.cons v PyItems.nil), rest2) else Option.none
      | [] => Option.none
    | Option.none => Option.none)

/-- Model of `json.loads`: the whole character sequence must form exactly one
JSON value. Recursion depth is bounded by the input length, so
`s.data.length + 1` units of fuel always suffice. -/
def pyJsonParse (s : String) : Option PyVal :=
  match jParse (s.data.length + 1) JMode.value s.data with
  | Option.some (v, rest) =>
    match jSkipWs rest with
    | [] => Option.some v
    | _ :: _ => Option.none
  | Option.none => Option.none

/-- Model of `response.json()`: UTF-8 decode of the body then `json.loads`. -/
def pyJsonOfBytes (body : List Nat) : Option PyVal :=
  match utf8Decode body with
  | Option.some s => pyJsonParse s
  | Option.none => Option.none

/-- Quote character `repr` picks for a Python string: single quotes, unless
the string contains a single quote and no double quote. -/
def pyQuoteChar (s : String) : Char :=
  if s.data.contains (Char.ofNat 39) ∧ ¬ s.data.contains (Char.ofNat 34) then Char.ofNat 34
  else Char.ofNat 39

/-- Lowercase hexadecimal digit, for the `\\xHH` escapes of `repr`. -/
def hexDigit (n : Nat) : Char :=
  if n < 10 then Char.ofNat (48 + n) else Char.ofNat (87 + n)

def pyEscChar (q c : Char) : List Char :=
  if c = '\\' ∨ c = q then ['\\', c]
  else if c = Char.ofNat 10 then ['\\', 'n']
  else if c = Char.ofNat 13 then ['\\', 'r']
  else if c = Char.ofNat 9 then ['\\', 't']
  else if c.toNat < 32 ∨ c.toNat = 127 then
    ['\\', 'x', hexDigit (c.toNat / 16), hexDigit (c.toNat % 16)]
  else [c]

/-- Python `repr` of a string: quote choice, backslash/quote escapes, and
`\\xHH` escapes for ASCII control characters and DEL. This is
character-exact for strings of ASCII characters; non-ASCII code points are
kept raw, which the theorems below never rely on (their hypotheses restrict
response bodies to printable ASCII). -/
def pyStrRepr (s : String) : String :=
  let q := pyQuoteChar s
  String.mk (q :: s.data.foldr (fun c acc => pyEscChar q c ++ acc) [q])

mutual

/-- Python `repr` of a parsed JSON value: dicts and lists render their
elements with `repr`, so nested strings appear quoted. -/
def pyRepr : PyVal → String
  | PyVal.str s => pyStrRepr s
  | PyVal.int n => toString n
  | PyVal.bool b => if b then "True" else "False"
  | PyVal.none => "None"
  | PyVal.list xs => "[" ++ pyReprItems xs ++ "]"
  | PyVal.dict kvs => "\x7b" ++ pyReprMembers kvs ++ "\x7d"

def pyReprItems : PyItems → String
  | PyItems.nil => ""
  | PyItems.cons x PyItems.nil => pyRepr x
  | PyItems.cons x (PyItems.cons y rest) =>
    pyRepr x ++ ", " ++ pyReprItems (PyItems.cons y rest)

def pyReprMembers : PyMembers → String
  | PyMembers.nil => ""
  | PyMembers.cons k v PyMembers.nil => pyStrRepr k ++ ": " ++ pyRepr v
  | PyMembers.cons k v (PyMembers.cons k2 v2 rest) =>
    pyStrRepr k ++ ": " ++ pyRepr v ++ ", " ++ pyReprMembers (PyMembers.cons k2 v2 rest)

end

/-- What an f-string interpolates for `response.json()`: `format`/`str()` of
the parsed value. For a top-level string `str()` is the bare string, with no
quotes; for every other value `str()` coincides with `repr`. -/
def pyFStr : PyVal → String
  | PyVal.str s => s
  | v => pyRepr v

/-! ## Data model of a call

The transport (`TosResource.get`) is the external collaborator: an
operation is modelled as a pure function of its arguments and the
`HttpResponse` the transport produced. `CallOutcome` records the query
parameters the operation attached to the request, the value returned or
error raised, and the observable events in order: `bodyRead` when the body
stream is consumed, `closed` when `response.aclose()` runs.
-/

structure HttpResponse where
  status_code : Nat
  content_length : Option String
  body : List Nat

inductive PyErr where
  | exception (msg : String)
  | valueError
  | unicodeDecodeError
  | jsonDecodeError
deriving DecidableEq

inductive Ev where
  | bodyRead
  | closed
deriving DecidableEq

structure CallOutcome where
  query : List (String × String)
  result : Except PyErr String
  events : List Ev

/-- The `try/finally` of each operation: once the response is obtained, the
`finally` block closes it on every exit path. -/
def tosFinally (body : Except PyErr String × List Ev) : Except PyErr String × List Ev :=
  (body.1, body.2 ++ [Ev.closed])

/-- Message of the size-gate exception, from the f-string in the source. -/
def tooLargeMsg (bucket_name key : String) (max_object_size : Nat) : String :=
  "Bucket: " ++ bucket_name ++ " object: " ++ key ++ " is too large, more than " ++
    toString max_object_size ++ " bytes"

/-- Model of `ObjectResource.get_object`. -/
def get_object (max_object_size : Nat) (bucket_name key : String)
    (resp : HttpResponse) : CallOutcome :=
  let chunk_size := 69 * 1024
  let r :=
    if resp.status_code = 200 ∨ resp.status_code = 206 then
      match pythonInt (resp.content_length.getD "0") with
      | Option.none => (Except.error PyErr.valueError, ([] : List Ev))
      | Option.some n =>
        if n > (max_object_size : Int) then
          (Except.error (PyErr.exception (tooLargeMsg bucket_name key max_object_size)), [])
        else
          let content := readChunks chunk_size resp.body
          ((if is_text_file key then
              match utf8Decode content with
              | Option.some s => Except.ok s
              | Option.none => Except.error PyErr.unicodeDecodeError
            else
              Except.ok (b64EncodeToStr content)), [Ev.bodyRead])
    else
      match pyJsonOfBytes resp.body with
      | Option.some v =>
        (Except.error (PyErr.exception ("get object failed, tos server return: " ++ pyFStr v)), [])
      | Option.none => (Except.error PyErr.jsonDecodeError, [])
  { query := [], result := (tosFinally r).1, events := (tosFinally r).2 }

/-- Model of `ObjectResource.video_info`. -/
def video_info (max_object_size : Nat) (bucket_name key : String)
    (resp : HttpResponse) : CallOutcome :=
  let chunk_size := 69 * 1024
  let r :=
    if resp.status_code = 200 ∨ resp.status_code = 206 then
      match pythonInt (resp.content_length.getD "0") with
      | Option.none => (Except.error PyErr.valueError, ([] : List Ev))
      | Option.some n =>
        if n > (max_object_size : Int) then
          (Except.error (PyErr.exception (tooLargeMsg bucket_name key max_object_size)), [])
        else
          let content := readChunks chunk_size resp.body
          ((match utf8Decode content with
            | Option.some s => Except.ok s
            | Option.none => Except.error PyErr.unicodeDecodeError), [Ev.bodyRead])
    else
      match pyJsonOfBytes resp.body with
      | Option.some v =>
        (Except.error
          (PyErr.exception ("get video info failed, tos server return: " ++ pyFStr v)), [])
      | Option.none => (Except.error PyErr.jsonDecodeError, [])
  { query := [("x-tos-process", "video/info")],
    result := (tosFinally r).1, events := (tosFinally r).2 }

/-- Python truthiness of an optional string argument (`if saveas_object:`):
true exactly when the argument was supplied and is non-empty. -/
def pyTruthy : Option String → Bool
  | Option.none => false
  | Option.some s => !(s == "")

/-- Python `str` of an int, as interpolated by the snapshot f-string. -/
def intStr (i : Int) : String :=
  toString i

/-- Concatenation as `"".join(...)`. -/
def strJoin : List String → String
  | [] => ""
  | s :: rest => s ++ strJoin rest

/-- The `params` dict of `video_snapshot`: one entry per supplied field,
inserted in the fixed source order t, w, h, m, f, ar (Python dicts preserve
insertion order). Values are already rendered as the f-string renders them;
the source's inner `if v is not None` filter is vacuous because only
non-None values are inserted. -/
def snapshotParams (time width height : Option Int)
    (mode output_format auto_rotate : Option String) : List (String × String) :=
  (match time with | Option.some t => [("t", intStr t)] | Option.none => []) ++
  (match width with | Option.some w => [("w", intStr w)] | Option.none => []) ++
  (match height with | Option.some h => [("h", intStr h)] | Option.none => []) ++
  (match mode with | Option.some m => [("m", m)] | Option.none => []) ++
  (match output_format with | Option.some f => [("f", f)] | Option.none => []) ++
  (match auto_rotate with | Option.some ar => [("ar", ar)] | Option.none => [])

/-- The `x-tos-process` query value built by `video_snapshot`. -/
def snapshotProcess (time width height : Option Int)
    (mode output_format auto_rotate : Option String) : String :=
  let params := snapshotParams time width height mode output_format auto_rotate
  if params.length > 0 then
    "video/snapshot" ++ strJoin (params.map (fun kv => "," ++ kv.1 ++ "_" ++ kv.2))
  else
    "video/snapshot"

/-- The full query dict of `video_snapshot`, in insertion order. -/
def snapshotQuery (time width height : Option Int)
    (mode output_format auto_rotate saveas_object saveas_bucket : Option String) :
    List (String × String) :=
  [("x-tos-process", snapshotProcess time width height mode output_format auto_rotate)] ++
  (if pyTruthy saveas_object then
    [("x-tos-save-object", b64EncodeToStr (utf8EncodeStr (saveas_object.getD "")))]
   else []) ++
  (if pyTruthy saveas_bucket then
    [("x-tos-save-bucket", b64EncodeToStr (utf8EncodeStr (saveas_bucket.getD "")))]
   else [])

/-- First query value bound to a key, as a dict lookup. -/
def lookupQ (q : List (String × String)) (k : String) : Option String :=
  (q.find? (fun kv => kv.1 == k)).map (fun kv => kv.2)

/-- Model of `ObjectResource.video_snapshot`. -/
def video_snapshot (max_object_size : Nat) (bucket_name key : String)
    (time width height : Option Int)
    (mode output_format auto_rotate saveas_object saveas_bucket : Option String)
    (resp : HttpResponse) : CallOutcome :=
  let query := snapshotQuery time width height mode output_format auto_rotate
    saveas_object saveas_bucket
  let chunk_size := 69 * 1024
  let r :=
    if resp.status_code = 200 ∨ resp.status_code = 206 then
      match pythonInt (resp.content_length.getD "0") with
      | Option.none => (Except.error PyErr.valueError, ([] : List Ev))
      | Option.some n =>
        if n > (max_object_size : Int) then
          (Except.error (PyErr.exception (tooLargeMsg bucket_name key max_object_size)), [])
        else
          let content := readChunks chunk_size resp.body
          ((if pyTruthy saveas_object then
              match utf8Decode content with
              | Option.some s => Except.ok s
              | Option.none => Except.error PyErr.unicodeDecodeError
            else
              Except.ok (b64EncodeToStr content)), [Ev.bodyRead])
    else
      match pyJsonOfBytes resp.body with
      | Option.some v =>
        (Except.error
          (PyErr.exception ("get video snapshot failed, tos server return: " ++ pyFStr v)), [])
      | Option.none => (Except.error PyErr.jsonDecodeError, [])
  { query := query, result := (tosFinally r).1, events := (tosFinally r).2 }

/-! ## Operation shape lemmas

Each operation takes one of three exits once the response is obtained: the
size gate fires, the success path reads and encodes the body, or a
non-success status raises with the rendered JSON body. These lemmas
compute the full `CallOutcome` on each exit and are shared by the claim
theorems below.
-/

theorem lastOfAppendClosed (l : List Ev) :
    (l ++ [Ev.closed]).getLast? = Option.some Ev.closed := by
  induction l with
  | nil => rfl
  | cons x xs ih =>
    rw [List.cons_append]
    cases hx : xs ++ [Ev.closed] with
    | nil => simp at hx
    | cons y ys =>
      rw [List.getLast?_cons_cons, ← hx, ih]

theorem containsStr_mid (a b c : String) : containsStr (a ++ b ++ c) b = true := by
  unfold containsStr
  rw [strData_append, strData_append, List.append_assoc]
  exact subScan_append a.data b.data c.data

theorem containsStr_of_eq (msg a b c : String) (he : msg = a ++ b ++ c) :
    containsStr msg b = true :=
  he ▸ containsStr_mid a b c

theorem get_object_tooLarge (max : Nat) (bucket key : String) (resp : HttpResponse) (n : Int)
    (hst : resp.status_code = 200 ∨ resp.status_code = 206)
    (hcl : pythonInt (resp.content_length.getD "0") = Option.some n)
    (hgt : n > (max : Int)) :
    get_object max bucket key resp =
      { query := [],
        result := Except.error (PyErr.exception (tooLargeMsg bucket key max)),
        events := [Ev.closed] } := by
  simp only [get_object]
  rw [if_pos hst, hcl]
  dsimp only
  rw [if_pos hgt]
  rfl

theorem video_info_tooLarge (max : Nat) (bucket key : String) (resp : HttpResponse) (n : Int)
    (hst : resp.status_code = 200 ∨ resp.status_code = 206)
    (hcl : pythonInt (resp.content_length.getD "0") = Option.some n)
    (hgt : n > (max : Int)) :
    video_info max bucket key resp =
      { query := [("x-tos-process", "video/info")],
        result := Except.error (PyErr.exception (tooLargeMsg bucket key max)),
        events := [Ev.closed] } := by
  simp only [video_info]
  rw [if_pos hst, hcl]
  dsimp only
  rw [if_pos hgt]
  rfl

theorem video_snapshot_tooLarge (max : Nat) (bucket key : String) (t w h : Option Int)
    (m f ar so sb : Option String) (resp : HttpResponse) (n : Int)
    (hst : resp.status_code = 200 ∨ resp.status_code = 206)
    (hcl : pythonInt (resp.content_length.getD "0") = Option.some n)
    (hgt : n > (max : Int)) :
    video_snapshot max bucket key t w h m f ar so sb resp =
      { query := snapshotQuery t w h m f ar so sb,
        result := Except.error (PyErr.exception (tooLargeMsg bucket key max)),
        events := [Ev.closed] } := by
  simp only [video_snapshot]
  rw [if_pos hst, hcl]
  dsimp only
  rw [if_pos hgt]
  rfl

theorem get_object_success (max : Nat) (bucket key : String) (resp : HttpResponse) (n : Int)
    (hst : resp.status_code = 200 ∨ resp.status_code = 206)
    (hcl : pythonInt (resp.content_length.getD "0") = Option.some n)
    (hle : n ≤ (max : Int)) :
    get_object max bucket key resp =
      { query := [],
        result :=
          (if is_text_file key then
            match utf8Decode resp.body with
            | Option.some s => Except.ok s
            | Option.none => Except.error PyErr.unicodeDecodeError
          else
            Except.ok (b64EncodeToStr resp.body)),
        events := [Ev.bodyRead, Ev.closed] } := by
  simp only [get_object]
  rw [if_pos hst, hcl]
  dsimp only
  rw [if_neg (by omega : ¬ n > (max : Int)), readChunks_id]
  rfl

theorem video_info_success (max : Nat) (bucket key : String) (resp : HttpResponse) (n : Int)
    (hst : resp.status_code = 200 ∨ resp.status_code = 206)
    (hcl : pythonInt (resp.content_length.getD "0") = Option.some n)
    (hle : n ≤ (max : Int)) :
    video_info max bucket key resp =
      { query := [("x-tos-process", "video/info")],
        result :=
          (match utf8Decode resp.body with
          | Option.some s => Except.ok s
          | Option.none => Except.error PyErr.unicodeDecodeError),
        events := [Ev.bodyRead, Ev.closed] } := by
  simp only [video_info]
  rw [if_pos hst, hcl]
  dsimp only
  rw [if_neg (by omega : ¬ n > (max : Int)), readChunks_id]
  rfl

theorem video_snapshot_success (max : Nat) (bucket key : String) (t w h : Option Int)
    (m f ar so sb : Option String) (resp : HttpResponse) (n : Int)
    (hst : resp.status_code = 200 ∨ resp.status_code = 206)
    (hcl : pythonInt (resp.content_length.getD "0") = Option.some n)
    (hle : n ≤ (max : Int)) :
    video_snapshot max bucket key t w h m f ar so sb resp =
      { query := snapshotQuery t w h m f ar so sb,
        result :=
          (if pyTruthy so then
            match utf8Decode resp.body with
            | Option.some s => Except.ok s
            | Option.none => Except.error PyErr.unicodeDecodeError
          else
            Except.ok (b64EncodeToStr resp.body)),
        events := [Ev.bodyRead, Ev.closed] } := by
  simp only [video_snapshot]
  rw [if_pos hst, hcl]
  dsimp only
  rw [if_neg (by omega : ¬ n > (max : Int)), readChunks_id]
  rfl

theorem get_object_upstream (max : Nat) (bucket key : String) (resp : HttpResponse) (v : PyVal)
    (hst : ¬ (resp.status_code = 200 ∨ resp.status_code = 206))
    (hj : pyJsonOfBytes resp.body = Option.some v) :
    get_object max bucket key resp =
      { query := [],
        result := Except.error
          (PyErr.exception ("get object failed, tos server return: " ++ pyFStr v)),
        events := [Ev.closed] } := by
  simp only [get_object]
  rw [if_neg hst, hj]
  rfl

theorem video_info_upstream (max : Nat) (bucket key : String) (resp : HttpResponse) (v : PyVal)
    (hst : ¬ (resp.status_code = 200 ∨ resp.status_code = 206))
    (hj : pyJsonOfBytes resp.body = Option.some v) :
    video_info max bucket key resp =
      { query := [("x-tos-process", "video/info")],
        result := Except.error
          (PyErr.exception ("get video info failed, tos server return: " ++ pyFStr v)),
        events := [Ev.closed] } := by
  simp only [video_info]
  rw [if_neg hst, hj]
  rfl

theorem video_snapshot_upstream (max : Nat) (bucket key : String) (t w h : Option Int)
    (m f ar so sb : Option String) (resp : HttpResponse) (v : PyVal)
    (hst : ¬ (resp.status_code = 200 ∨ resp.status_code = 206))
    (hj : pyJsonOfBytes resp.body = Option.some v) :
    video_snapshot max bucket key t w h m f ar so sb resp =
      { query := snapshotQuery t w h m f ar so sb,
        result := Except.error
          (PyErr.exception ("get video snapshot failed, tos server return: " ++ pyFStr v)),
        events := [Ev.closed] } := by
  simp only [video_snapshot]
  rw [if_neg hst, hj]
  rfl

/-! ## Claims -/

/-- Claim C1 counterexample: with limit 10 and declared content-length 25,
the raised error message is exactly the source f-string, which does not
contain the observed declared size 25 — the claim says the error carries
the observed declared size. -/
theorem claim1_counterexample :
    (get_object 10 "b" "k" ⟨200, Option.some "25", [1, 2, 3]⟩).result =
      Except.error (PyErr.exception "Bucket: b object: k is too large, more than 10 bytes") ∧
    containsStr "Bucket: b object: k is too large, more than 10 bytes" "25" = false :=
  ⟨rfl, rfl⟩

/-- Claim C1 (amended): for every response whose declared content-length
parses to a value exceeding the configured maximum, each of the three
operations raises the TooLarge error before any body bytes are read, and
the error carries the bucket, the key and the configured limit (but not
the observed declared size). -/
theorem claim1_theorem (max : Nat) (bucket key : String) (t w h : Option Int)
    (m f ar so sb : Option String) (resp : HttpResponse) (n : Int)
    (hst : resp.status_code = 200 ∨ resp.status_code = 206)
    (hcl : pythonInt (resp.content_length.getD "0") = Option.some n)
    (hgt : n > (max : Int)) :
    ((get_object max bucket key resp).result =
        Except.error (PyErr.exception (tooLargeMsg bucket key max)) ∧
      Ev.bodyRead ∉ (get_object max bucket key resp).events) ∧
    ((video_info max bucket key resp).result =
        Except.error (PyErr.exception (tooLargeMsg bucket key max)) ∧
      Ev.bodyRead ∉ (video_info max bucket key resp).events) ∧
    ((video_snapshot max bucket key t w h m f ar so sb resp).result =
        Except.error (PyErr.exception (tooLargeMsg bucket key max)) ∧
      Ev.bodyRead ∉ (video_snapshot max bucket key t w h m f ar so sb resp).events) ∧
    containsStr (tooLargeMsg bucket key max) bucket = true ∧
    containsStr (tooLargeMsg bucket key max) key = true ∧
    containsStr (tooLargeMsg bucket key max) (toString max) = true := by
  rw [get_object_tooLarge max bucket key resp n hst hcl hgt,
    video_info_tooLarge max bucket key resp n hst hcl hgt,
    video_snapshot_tooLarge max bucket key t w h m f ar so sb resp n hst hcl hgt]
  refine ⟨⟨rfl, by simp⟩, ⟨rfl, by simp⟩, ⟨rfl, by simp⟩, ?_, ?_, ?_⟩
  · exact containsStr_of_eq _ "Bucket: " bucket
      (" object: " ++ key ++ " is too large, more than " ++ toString max ++ " bytes")
      (by simp [tooLargeMsg, strAppend_assoc])
  · exact containsStr_of_eq _ ("Bucket: " ++ bucket ++ " object: ") key
      (" is too large, more than " ++ toString max ++ " bytes")
      (by simp [tooLargeMsg, strAppend_assoc])
  · exact containsStr_of_eq _
      ("Bucket: " ++ bucket ++ " object: " ++ key ++ " is too large, more than ")
      (toString max) " bytes"
      (by simp [tooLargeMsg, strAppend_assoc])

/-- Claim C1 witness: the amended theorem applied at limit 10 and declared
content-length 99. -/
theorem claim1_witness :
    (get_object 10 "b" "k" ⟨200, Option.some "99", []⟩).result =
      Except.error (PyErr.exception (tooLargeMsg "b" "k" 10)) :=
  ((claim1_theorem 10 "b" "k" Option.none Option.none Option.none Option.none Option.none
    Option.none Option.none Option.none ⟨200, Option.some "99", []⟩ 99
    (Or.inl rfl) rfl (by decide)).1).1

/-- Claim C7: the size gate parses the declared content-length with a
default of "0": a response with no content-length header parses to size 0
and passes the gate (the body is read), and a response whose declared
content-length parses to exactly the configured limit is accepted. -/
theorem claim7_theorem (max : Nat) (bucket key : String) (resp : HttpResponse) :
    (resp.content_length = Option.none →
      pythonInt (resp.content_length.getD "0") = Option.some 0 ∧
      (resp.status_code = 200 ∨ resp.status_code = 206 →
        Ev.bodyRead ∈ (get_object max bucket key resp).events ∧
        Ev.bodyRead ∈ (video_info max bucket key resp).events)) ∧
    (∀ v : String, resp.content_length = Option.some v →
      pythonInt v = Option.some (max : Int) →
      (resp.status_code = 200 ∨ resp.status_code = 206 →
        Ev.bodyRead ∈ (get_object max bucket key resp).events ∧
        Ev.bodyRead ∈ (video_info max bucket key resp).events)) := by
  constructor
  · intro hnone
    have hcl : pythonInt (resp.content_length.getD "0") = Option.some 0 := by
      rw [hnone]
      rfl
    refine ⟨hcl, fun hst => ?_⟩
    rw [get_object_success max bucket key resp 0 hst hcl (by omega),
      video_info_success max bucket key resp 0 hst hcl (by omega)]
    exact ⟨by simp, by simp⟩
  · intro v hv hp hst
    have hcl : pythonInt (resp.content_length.getD "0") = Option.some (max : Int) := by
      rw [hv]
      exact hp
    rw [get_object_success max bucket key resp (max : Int) hst hcl le_rfl,
      video_info_success max bucket key resp (max : Int) hst hcl le_rfl]
    exact ⟨by simp, by simp⟩

/-- Claim C7 witness: a response without a content-length header and one
declaring exactly the limit both reach the body read. -/
theorem claim7_witness :
    Ev.bodyRead ∈ (get_object 5 "b" "k" ⟨200, Option.none, []⟩).events ∧
    Ev.bodyRead ∈ (get_object 5 "b" "k" ⟨200, Option.some "5", []⟩).events :=
  ⟨(((claim7_theorem 5 "b" "k" ⟨200, Option.none, []⟩).1 rfl).2 (Or.inl rfl)).1,
   (((claim7_theorem 5 "b" "k" ⟨200, Option.some "5", []⟩).2 "5" rfl rfl) (Or.inl rfl)).1⟩

/-- Claim C8: on every exit path of each operation the response resource is
released after everything else: the last observable event is always
`closed`. -/
theorem claim8_theorem (max : Nat) (bucket key : String) (t w h : Option Int)
    (m f ar so sb : Option String) (resp : HttpResponse) :
    (get_object max bucket key resp).events.getLast? = Option.some Ev.closed ∧
    (video_info max bucket key resp).events.getLast? = Option.some Ev.closed ∧
    (video_snapshot max bucket key t w h m f ar so sb resp).events.getLast? =
      Option.some Ev.closed :=
  ⟨lastOfAppendClosed _, lastOfAppendClosed _, lastOfAppendClosed _⟩

/-- Claim C2 counterexample: a 404 response with body
`\x7b"error":"NoSuchKey"\x7d` raises an error whose message interpolates
`str()` of the parsed JSON dict — its repr, with single-quoted strings —
and the message does not contain the verbatim body text, while the claim
says the message carries the service's JSON error body verbatim. -/
theorem claim2_counterexample :
    (get_object 10 "b" "k"
        ⟨404, Option.none, asciiBytes "\x7b\"error\":\"NoSuchKey\"\x7d"⟩).result =
      Except.error (PyErr.exception ("get object failed, tos server return: " ++
        pyFStr (PyVal.dict (PyMembers.cons "error" (PyVal.str "NoSuchKey") PyMembers.nil)))) ∧
    containsStr ("get object failed, tos server return: " ++
      pyFStr (PyVal.dict (PyMembers.cons "error" (PyVal.str "NoSuchKey") PyMembers.nil)))
      "\x7b\"error\":\"NoSuchKey\"\x7d" = false :=
  ⟨rfl, rfl⟩

/-- Claim C2 (amended): each operation treats status 200 and status 206 as
success — the body is read — and for any other status raises an error whose
message carries the `str()` rendering of the JSON-parsed error body: the
bare string for a top-level JSON string, and for any other value its repr,
which quotes nested strings with single quotes rather than reproducing the
body verbatim. The printable-ASCII hypothesis on the body scopes the
statement to inputs where this rendering is character-exact for Python. -/
theorem claim2_theorem (max : Nat) (bucket key : String) (t w h : Option Int)
    (m f ar so sb : Option String) :
    (∀ (resp : HttpResponse) (n : Int),
      (resp.status_code = 200 ∨ resp.status_code = 206) →
      pythonInt (resp.content_length.getD "0") = Option.some n →
      n ≤ (max : Int) →
      Ev.bodyRead ∈ (get_object max bucket key resp).events ∧
      Ev.bodyRead ∈ (video_info max bucket key resp).events ∧
      Ev.bodyRead ∈ (video_snapshot max bucket key t w h m f ar so sb resp).events) ∧
    (∀ (resp : HttpResponse) (v : PyVal),
      ¬ (resp.status_code = 200 ∨ resp.status_code = 206) →
      (∀ b ∈ resp.body, 32 ≤ b ∧ b ≤ 126) →
      pyJsonOfBytes resp.body = Option.some v →
      (get_object max bucket key resp).result =
        Except.error
          (PyErr.exception ("get object failed, tos server return: " ++ pyFStr v)) ∧
      (video_info max bucket key resp).result =
        Except.error
          (PyErr.exception ("get video info failed, tos server return: " ++ pyFStr v)) ∧
      (video_snapshot max bucket key t w h m f ar so sb resp).result =
        Except.error
          (PyErr.exception ("get video snapshot failed, tos server return: " ++ pyFStr v)) ∧
      containsStr ("get object failed, tos server return: " ++ pyFStr v) (pyFStr v) = true) := by
  constructor
  · intro resp n hst hcl hle
    rw [get_object_success max bucket key resp n hst hcl hle,
      video_info_success max bucket key resp n hst hcl hle,
      video_snapshot_success max bucket key t w h m f ar so sb resp n hst hcl hle]
    exact ⟨by simp, by simp, by simp⟩
  · intro resp v hst hascii hj
    rw [get_object_upstream max bucket key resp v hst hj,
      video_info_upstream max bucket key resp v hst hj,
      video_snapshot_upstream max bucket key t w h m f ar so sb resp v hst hj]
    refine ⟨rfl, rfl, rfl, ?_⟩
    exact containsStr_of_eq _ "get object failed, tos server return: " (pyFStr v) ""
      (by simp [strAppend_assoc, strAppend_empty])

/-- Claim C2 witness: the amended theorem applied to a 206 success and to
the 404 scenario. -/
theorem claim2_witness :
    Ev.bodyRead ∈ (get_object 10 "b" "k" ⟨206, Option.some "3", asciiBytes "abc"⟩).events ∧
    (get_object 10 "b" "k"
        ⟨404, Option.none, asciiBytes "\x7b\"error\":\"NoSuchKey\"\x7d"⟩).result =
      Except.error (PyErr.exception ("get object failed, tos server return: " ++
        pyFStr (PyVal.dict (PyMembers.cons "error" (PyVal.str "NoSuchKey") PyMembers.nil)))) :=
  ⟨((claim2_theorem 10 "b" "k" Option.none Option.none Option.none Option.none Option.none
      Option.none Option.none Option.none).1 ⟨206, Option.some "3", asciiBytes "abc"⟩ 3
      (Or.inr rfl) rfl (by decide)).1,
   ((claim2_theorem 10 "b" "k" Option.none Option.none Option.none Option.none Option.none
      Option.none Option.none Option.none).2
      ⟨404, Option.none, asciiBytes "\x7b\"error\":\"NoSuchKey\"\x7d"⟩
      (PyVal.dict (PyMembers.cons "error" (PyVal.str "NoSuchKey") PyMembers.nil))
      (by simp) (by decide) rfl).1⟩

/-- Claim C3: on a successful gate-passing response, get_object returns the
UTF-8-decoded body for exactly the keys whose lowercased name ends with one
of the fixed text extensions, and for every other key returns the standard
base64 encoding of the exact bytes received, which base64-decodes back to
those bytes. -/
theorem claim3_theorem (max : Nat) (bucket key : String) (resp : HttpResponse) (n : Int)
    (hst : resp.status_code = 200 ∨ resp.status_code = 206)
    (hcl : pythonInt (resp.content_length.getD "0") = Option.some n)
    (hle : n ≤ (max : Int))
    (hbytes : ∀ b ∈ resp.body, b < 256) :
    (is_text_file key = text_extensions.any (fun ext => strEndsWith (pyLower key) ext)) ∧
    (is_text_file key = true →
      ∀ s : String, utf8Decode resp.body = Option.some s →
        (get_object max bucket key resp).result = Except.ok s) ∧
    (is_text_file key = false →
      (get_object max bucket key resp).result = Except.ok (b64EncodeToStr resp.body) ∧
      b64DecodeStr (b64EncodeToStr resp.body) = Option.some resp.body) := by
  rw [get_object_success max bucket key resp n hst hcl hle]
  refine ⟨rfl, ?_, ?_⟩
  · intro htext s hdec
    simp [htext, hdec]
  · intro htext
    exact ⟨by simp [htext], b64_roundtrip resp.body hbytes⟩

/-- Claim C3 witness: a text key returns the body verbatim; a binary key
returns base64 that decodes back to the received bytes. -/
theorem claim3_witness :
    (get_object 1000 "b" "a.json"
        ⟨200, Option.some "7", asciiBytes "\x7b\"x\":1\x7d"⟩).result =
      Except.ok "\x7b\"x\":1\x7d" ∧
    (get_object 1000 "b" "a.bin" ⟨200, Option.none, [0, 255]⟩).result = Except.ok "AP8=" ∧
    b64DecodeStr "AP8=" = Option.some [0, 255] :=
  ⟨((claim3_theorem 1000 "b" "a.json" ⟨200, Option.some "7", asciiBytes "\x7b\"x\":1\x7d"⟩ 7
      (Or.inl rfl) rfl (by decide) (by decide)).2.1 rfl "\x7b\"x\":1\x7d" rfl),
   ((claim3_theorem 1000 "b" "a.bin" ⟨200, Option.none, [0, 255]⟩ 0
      (Or.inl rfl) rfl (by decide) (by decide)).2.2 rfl).1,
   ((claim3_theorem 1000 "b" "a.bin" ⟨200, Option.none, [0, 255]⟩ 0
      (Or.inl rfl) rfl (by decide) (by decide)).2.2 rfl).2⟩

/-- Claim C9: video_info attaches exactly the query parameter
x-tos-process=video/info and, on a successful gate-passing response,
returns the UTF-8-decoded body for every key: the result does not depend on
the key and no base64 path exists. -/
theorem claim9_theorem (max : Nat) (bucket key : String) (resp : HttpResponse) (n : Int)
    (hst : resp.status_code = 200 ∨ resp.status_code = 206)
    (hcl : pythonInt (resp.content_length.getD "0") = Option.some n)
    (hle : n ≤ (max : Int)) :
    (video_info max bucket key resp).query = [("x-tos-process", "video/info")] ∧
    (∀ s : String, utf8Decode resp.body = Option.some s →
      (video_info max bucket key resp).result = Except.ok s) ∧
    (∀ key2 : String,
      (video_info max bucket key2 resp).result = (video_info max bucket key resp).result) := by
  refine ⟨?_, ?_, ?_⟩
  · rw [video_info_success max bucket key resp n hst hcl hle]
  · intro s hdec
    rw [video_info_success max bucket key resp n hst hcl hle]
    simp [hdec]
  · intro key2
    rw [video_info_success max bucket key2 resp n hst hcl hle,
      video_info_success max bucket key resp n hst hcl hle]

/-- Claim C9 witness: a video key with a non-text extension still returns
the decoded JSON metadata, with the video/info query attached. -/
theorem claim9_witness :
    (video_info 100 "b" "movie.mp4" ⟨200, Option.some "2", asciiBytes "ok"⟩).query =
      [("x-tos-process", "video/info")] ∧
    (video_info 100 "b" "movie.mp4" ⟨200, Option.some "2", asciiBytes "ok"⟩).result =
      Except.ok "ok" :=
  ⟨(claim9_theorem 100 "b" "movie.mp4" ⟨200, Option.some "2", asciiBytes "ok"⟩ 2
      (Or.inl rfl) rfl (by decide)).1,
   (claim9_theorem 100 "b" "movie.mp4" ⟨200, Option.some "2", asciiBytes "ok"⟩ 2
      (Or.inl rfl) rfl (by decide)).2.1 "ok" rfl⟩

/-- Fragment contributed by one snapshot field: nothing when unset, comma
plus short code, underscore and the rendered value when supplied. -/
def optFrag (code : String) : Option String → String
  | Option.none => ""
  | Option.some v => "," ++ code ++ "_" ++ v

/-- Claim C4: the x-tos-process value is video/snapshot followed by exactly
one fragment per supplied field under the code map t, w, h, m, f, ar, in
that fixed order, with no fragment for unset fields and the bare value when
no field is supplied. -/
theorem claim4_theorem (t w h : Option Int) (m f ar : Option String) :
    snapshotProcess t w h m f ar =
      "video/snapshot" ++ optFrag "t" (t.map intStr) ++ optFrag "w" (w.map intStr) ++
        optFrag "h" (h.map intStr) ++ optFrag "m" m ++ optFrag "f" f ++ optFrag "ar" ar ∧
    snapshotProcess Option.none Option.none Option.none Option.none Option.none Option.none =
      "video/snapshot" := by
  constructor
  · rcases t with _ | tv <;> rcases w with _ | wv <;> rcases h with _ | hv <;>
      rcases m with _ | mv <;> rcases f with _ | fv <;> rcases ar with _ | arv <;>
      simp [snapshotProcess, snapshotParams, strJoin, optFrag, strAppend_assoc,
        strAppend_empty, strEmpty_append]
  · rfl

/-- Claim C5 counterexample: supplying saveas_object as the empty string adds
no x-tos-save-object parameter at all, while the claim requires the
parameter (with value base64 of the UTF-8 bytes) for every supplied string. -/
theorem claim5_counterexample :
    lookupQ (snapshotQuery Option.none Option.none Option.none Option.none Option.none
      Option.none (Option.some "") Option.none) "x-tos-save-object" = Option.none ∧
    (Option.none : Option String) ≠ Option.some (b64EncodeToStr (utf8EncodeStr "")) :=
  ⟨rfl, by simp⟩

/-- Claim C5 (amended): the x-tos-save-object query parameter is present
exactly when saveas_object is supplied and non-empty, with value equal to
the standard base64 of the UTF-8 bytes of the string, and likewise
x-tos-save-bucket for saveas_bucket; the two are independent of each other
and of all other parameters, and an omitted or empty field adds no
parameter. -/
theorem claim5_theorem (t w h : Option Int) (m f ar so sb : Option String) :
    lookupQ (snapshotQuery t w h m f ar so sb) "x-tos-save-object" =
      (match so with
       | Option.some s =>
         if s = "" then Option.none else Option.some (b64EncodeToStr (utf8EncodeStr s))
       | Option.none => Option.none) ∧
    lookupQ (snapshotQuery t w h m f ar so sb) "x-tos-save-bucket" =
      (match sb with
       | Option.some s =>
         if s = "" then Option.none else Option.some (b64EncodeToStr (utf8EncodeStr s))
       | Option.none => Option.none) := by
  constructor <;>
    (rcases so with _ | sov <;> rcases sb with _ | sbv <;>
      simp [snapshotQuery, lookupQ, pyTruthy, List.find?] <;>
      split_ifs <;> simp_all [List.find?])

/-- Claim C6 counterexample: saveas_object supplied as the empty string with
body "hi": the body decodes as UTF-8 to "hi", yet the operation returns the
base64 encoding "aGk=" — the claim says any supplied saveas_object yields
the UTF-8-decoded text. -/
theorem claim6_counterexample :
    (video_snapshot 100 "b" "k" Option.none Option.none Option.none Option.none Option.none
        Option.none (Option.some "") Option.none ⟨200, Option.none, asciiBytes "hi"⟩).result =
      Except.ok "aGk=" ∧
    utf8Decode (asciiBytes "hi") = Option.some "hi" ∧
    ("aGk=" : String) ≠ "hi" :=
  ⟨rfl, rfl, by decide⟩

/-- Claim C6 (amended): on a successful gate-passing response the result
encoding is decided solely by the truthiness of saveas_object: supplied and
non-empty gives the UTF-8-decoded body, omitted or empty gives the standard
base64 of the raw bytes. -/
theorem claim6_theorem (max : Nat) (bucket key : String) (t w h : Option Int)
    (m f ar so sb : Option String) (resp : HttpResponse) (n : Int)
    (hst : resp.status_code = 200 ∨ resp.status_code = 206)
    (hcl : pythonInt (resp.content_length.getD "0") = Option.some n)
    (hle : n ≤ (max : Int)) :
    (pyTruthy so = true →
      ∀ s : String, utf8Decode resp.body = Option.some s →
        (video_snapshot max bucket key t w h m f ar so sb resp).result = Except.ok s) ∧
    (pyTruthy so = false →
      (video_snapshot max bucket key t w h m f ar so sb resp).result =
        Except.ok (b64EncodeToStr resp.body)) := by
  rw [video_snapshot_success max bucket key t w h m f ar so sb resp n hst hcl hle]
  constructor
  · intro htr s hdec
    simp [htr, hdec]
  · intro hfa
    simp [hfa]

/-- Claim C6 witness: the amended theorem applied with a non-empty
saveas_object (UTF-8 text result) and with saveas_object omitted (base64
result). -/
theorem claim6_witness :
    (video_snapshot 100 "b" "k" Option.none Option.none Option.none Option.none Option.none
        Option.none (Option.some "pic.jpg") Option.none
        ⟨200, Option.none, asciiBytes "meta"⟩).result = Except.ok "meta" ∧
    (video_snapshot 100 "b" "k" Option.none Option.none Option.none Option.none Option.none
        Option.none Option.none Option.none ⟨200, Option.none, asciiBytes "hi"⟩).result =
      Except.ok "aGk=" :=
  ⟨(claim6_theorem 100 "b" "k" Option.none Option.none Option.none Option.none Option.none
      Option.none (Option.some "pic.jpg") Option.none ⟨200, Option.none, asciiBytes "meta"⟩ 0
      (Or.inl rfl) rfl (by decide)).1 rfl "meta" rfl,
   (claim6_theorem 100 "b" "k" Option.none Option.none Option.none Option.none Option.none
      Option.none Option.none Option.none ⟨200, Option.none, asciiBytes "hi"⟩ 0
      (Or.inl rfl) rfl (by decide)).2 rfl⟩

/-- Claim C10: empty-string saveas fields behave exactly like omission (the
whole call, query included, is identical, and an empty saveas_object gives
the base64-encoded image bytes), while the integer fields supplied as 0
count as supplied and produce fragments, e.g. t_0, w_0, h_0. -/
theorem claim10_theorem (max : Nat) (bucket key : String) (t w h : Option Int)
    (m f ar so sb : Option String) (bs : List Nat) :
    (∀ resp : HttpResponse,
      video_snapshot max bucket key t w h m f ar (Option.some "") sb resp =
        video_snapshot max bucket key t w h m f ar Option.none sb resp) ∧
    (∀ resp : HttpResponse,
      video_snapshot max bucket key t w h m f ar so (Option.some "") resp =
        video_snapshot max bucket key t w h m f ar so Option.none resp) ∧
    (video_snapshot max bucket key t w h m f ar (Option.some "") sb
        ⟨200, Option.none, bs⟩).result = Except.ok (b64EncodeToStr bs) ∧
    snapshotProcess (Option.some 0) (Option.some 0) (Option.some 0) Option.none Option.none
      Option.none = "video/snapshot,t_0,w_0,h_0" := by
  refine ⟨fun resp => rfl, fun resp => rfl, ?_, rfl⟩
  rw [video_snapshot_success max bucket key t w h m f ar (Option.some "") sb
    ⟨200, Option.none, bs⟩ 0 (Or.inl rfl) rfl (by omega)]
  rfl
